import Mathlib

/-! dahua-companion: the stream consumer, the health handler and the shutdown sequence.

A shallow embedding of `main.go`.  The external collaborators (the HTTP client,
the line scanner over the response body, the MQTT client, the clock and the
logger) are represented by their observable outcomes, and every call the
program makes on them is recorded, in program order, in a list of `Action`s.
-/

namespace DahuaCompanion

/-! ## Constants of the Go standard library used by the program -/

/-- Value of `http.StatusOK`. -/
def StatusOK : Int := 200

/-- Value of `http.StatusServiceUnavailable`. -/
def StatusServiceUnavailable : Int := 503

/-- Value of `time.Second`, a `time.Duration` counted in nanoseconds. -/
def Second : Nat := 1000000000

/-! ## Data model -/

/-- One element of a Go `[]byte`. -/
abbrev Byte := Fin 256

/-- The two fields of `*http.Response` the program reads. -/
structure Response where
  StatusCode : Int
  Status : String
deriving DecidableEq

/-- Outcome `(resp, err)` of `httpClient.Get(url)`. -/
inductive GetResult where
  | error (err : String)
  | response (resp : Response)
deriving DecidableEq

/-- What the program observes of an `mqtt.Token`: the result of `token.Wait()`
and the value of `token.Error()` (`none` for `nil`). -/
structure Token where
  wait : Bool
  error : Option String
deriving DecidableEq

/-- Calls the program makes on its collaborators. -/
inductive Action where
  | Get (url : String)
  | BodyClose
  | Sleep (d : Nat)
  | Publish (topic : String) (qos : Nat) (retained : Bool) (payload : String)
  | Log (msg : String)
  | Print (msg : String)
deriving DecidableEq

/-- The package-level variables `mqttConnected` and `httpConnected`, together
with the actions performed so far. -/
structure World where
  mqttConnected : Int
  httpConnected : Int
  trace : List Action
deriving DecidableEq

/-- Everything one call of `listenToMQTT` receives from outside: the outcome of
the GET, the tokens `scanner.Scan()` yields before it returns false, the value
of `scanner.Err()` afterwards, and the token returned by the k-th `Publish`
call of this iteration. -/
structure StreamEnv where
  get : GetResult
  lines : List (List Byte)
  scanErr : Option String
  publish : Nat → Token

/-! ## listenToMQTT -/

/-- The condition `len(bytes) == 36 && bytes[25] == 97`.  The index expression
is evaluated only when the length test succeeded (Go's `&&` short-circuits),
where offset 25 is in bounds. -/
def signatureTest (bytes : List Byte) : Bool :=
  if h : bytes.length = 36 then bytes.get ⟨25, by omega⟩ == (97 : Byte) else false

/-- The body of the `for scanner.Scan()` loop for one line; `tok` is the token
the `Publish` call would return. -/
def scanBody (bytes : List Byte) (tok : Token) : List Action :=
  if signatureTest bytes then
    [Action.Log "Doorbell pressed", Action.Publish "doorbell/pressed" 0 false ""]
      ++ (match tok.wait, tok.error with
          | true, some e => [Action.Log e]
          | _, _ => [])
  else []

/-- The loop `for scanner.Scan() { ... }`: `k` counts the `Publish` calls
already made in this iteration. -/
def scanLoop (publish : Nat → Token) : List (List Byte) → Nat → List Action
  | [], _ => []
  | bytes :: rest, k =>
    scanBody bytes (publish k)
      ++ scanLoop publish rest (if signatureTest bytes then k + 1 else k)

/-- The URL built by `fmt.Sprintf` in `listenToMQTT`. -/
def streamURL (host_or_ip : String) : String :=
  "http://" ++ host_or_ip
    ++ "/cgi-bin/eventManager.cgi?action=attach&codes=[AlarmLocal]&heartbeat=30"

/-- One call of `listenToMQTT`. -/
def listenToMQTT (host_or_ip : String) (env : StreamEnv) (w : World) : World :=
  let w := { w with trace := w.trace ++ [Action.Get (streamURL host_or_ip)] }
  match env.get with
  | GetResult.error err =>
    { w with
      httpConnected := 0
      trace := w.trace ++ [Action.Log ("Error fetching http stream: " ++ err ++ "\n"),
                           Action.Sleep (5 * Second)] }
  | GetResult.response resp =>
    if resp.StatusCode ≠ StatusOK then
      { w with
        httpConnected := 0
        trace := w.trace
          ++ [Action.Log ("Received non-OK HTTP status: " ++ toString resp.StatusCode ++ "\n"),
              Action.BodyClose,
              Action.Sleep (5 * Second)] }
    else
      let w := { w with
        httpConnected := 1
        trace := w.trace ++ [Action.Log "Connected to HTTP stream and listening for events"] }
      let w := { w with trace := w.trace ++ scanLoop env.publish env.lines 0 }
      let w := match env.scanErr with
        | some err =>
          { w with trace := w.trace ++ [Action.Log ("Error reading the stream: " ++ err ++ "\n")] }
        | none => w
      { w with trace := w.trace ++ [Action.BodyClose, Action.Sleep (5 * Second)] }

/-- What one evaluation of the supervisor's `select` observes: whether the
`shutdown` channel is closed, and the environment of the `listenToMQTT` call
made when it is not. -/
structure SelectObs where
  closed : Bool
  env : StreamEnv

/-- The goroutine `for { select { case <-shutdown: return; default: listenToMQTT(...) } }`
run over a finite sequence of observations. -/
def supervisor (host_or_ip : String) : List SelectObs → World → World
  | [], w => w
  | o :: rest, w =>
    if o.closed then w else supervisor host_or_ip rest (listenToMQTT host_or_ip o.env w)

/-- The bytes of a string of ASCII characters. -/
def asciiBytes (s : String) : List Byte :=
  s.toList.map (fun c => Fin.ofNat c.toNat)

/-- Whether an action is a call of `mqttClient.Publish`. -/
def Action.isPublish : Action → Bool
  | Action.Publish _ _ _ _ => true
  | _ => false

/-- Whether an action is a call of `httpClient.Get`. -/
def Action.isGet : Action → Bool
  | Action.Get _ => true
  | _ => false

/-- Whether an action is a call of `time.Sleep`. -/
def Action.isSleep : Action → Bool
  | Action.Sleep _ => true
  | _ => false

/-- A trace in which a 5-second sleep lies between any two GET attempts, and
after every GET attempt. -/
def Cooled (t : List Action) : Prop :=
  (∀ (i j : Nat) (u v : String), i < j →
      t[i]? = some (Action.Get u) → t[j]? = some (Action.Get v) →
      ∃ k : Nat, i < k ∧ k < j ∧ t[k]? = some (Action.Sleep (5 * Second)))
  ∧ (∀ (i : Nat) (u : String), t[i]? = some (Action.Get u) →
      ∃ k : Nat, i < k ∧ k < t.length ∧ t[k]? = some (Action.Sleep (5 * Second)))

/-! ## healthCheckHandler -/

/-- Calls a handler makes on its `http.ResponseWriter`. -/
inductive WCall where
  | Write (body : String)
  | WriteHeader (statusCode : Int)
deriving DecidableEq

/-- Final values of the handler's local variables, the calls it made on `w`
and the other actions it performed, in program order. -/
structure HandlerRun where
  statusCode : Int
  mqttStatus : String
  httpStatus : String
  doorbellStatus : String
  calls : List WCall
  actions : List Action
deriving DecidableEq

/-- The URL built by `fmt.Sprintf` in `healthCheckHandler`. -/
def probeURL (host_or_ip : String) : String :=
  "http://" ++ host_or_ip ++ "/cgi-bin/configManager.cgi?action=setConfig&VSP_PaaS.Online=true"

/-- The function returned by `healthCheckHandler(httpClient, host_or_ip)`, run
on one request: `mqttConnected` and `httpConnected` are the values the two
atomic loads return and `probe` is the outcome of the GET. -/
def healthCheckHandler (host_or_ip : String) (mqttConnected httpConnected : Int)
    (probe : GetResult) : HandlerRun :=
  let statusCode := StatusOK
  let mqttStatus := "connected"
  let (mqttStatus, statusCode) :=
    if mqttConnected ≠ 1 then ("disconnected", StatusServiceUnavailable)
    else (mqttStatus, statusCode)
  let httpStatus := "connected"
  let (httpStatus, statusCode) :=
    if httpConnected ≠ 1 then ("disconnected", StatusServiceUnavailable)
    else (httpStatus, statusCode)
  let doorbellStatus := "okay"
  let actions := [Action.Get (probeURL host_or_ip)]
  let (doorbellStatus, statusCode, actions) :=
    match probe with
    | GetResult.error err =>
      ("HTTP Request Error", statusCode,
        actions ++ [Action.Print ("client: error making http request: " ++ err ++ "\n")])
    | GetResult.response res =>
      if res.StatusCode ≠ StatusOK then
        ("HTTP Status Error " ++ res.Status, StatusServiceUnavailable,
          actions ++ [Action.Print
            ("Expected 200 response got: " ++ toString res.StatusCode ++ "\n")])
      else (doorbellStatus, statusCode, actions)
  let calls : List WCall :=
    if statusCode ≠ StatusOK then
      [WCall.Write
        ("MQTT: " ++ mqttStatus ++ ", HTTP: " ++ httpStatus ++ ", Doorbell: " ++ doorbellStatus)]
    else []
  let calls := calls ++ [WCall.WriteHeader statusCode]
  { statusCode := statusCode, mqttStatus := mqttStatus, httpStatus := httpStatus,
    doorbellStatus := doorbellStatus, calls := calls, actions := actions }

/-- The bodies passed to `w.Write`, in call order. -/
def writes (calls : List WCall) : List String :=
  calls.filterMap (fun c => match c with
    | WCall.Write b => some b
    | WCall.WriteHeader _ => none)

/-! ## The ResponseWriter contract of net/http

`Write`: "If WriteHeader has not yet been called, Write calls
WriteHeader(http.StatusOK) before writing the data."  `WriteHeader`: "Only one
header may be written"; a later call does not change the status already sent.
A handler that returns without either call gets an implicit
`WriteHeader(http.StatusOK)`. -/

/-- State of the response as the client receives it. -/
structure ResponseWriter where
  wroteHeader : Bool
  status : Int
  body : String
deriving DecidableEq

/-- The method `WriteHeader` of `http.ResponseWriter`. -/
def ResponseWriter.WriteHeader (rw : ResponseWriter) (statusCode : Int) : ResponseWriter :=
  if rw.wroteHeader then rw else { rw with wroteHeader := true, status := statusCode }

/-- The method `Write` of `http.ResponseWriter`. -/
def ResponseWriter.Write (rw : ResponseWriter) (b : String) : ResponseWriter :=
  let rw := if rw.wroteHeader then rw else rw.WriteHeader StatusOK
  { rw with body := rw.body ++ b }

/-- The response of a handler that made the given calls and returned. -/
def deliver (calls : List WCall) : ResponseWriter :=
  let rw := calls.foldl
    (fun rw c => match c with
      | WCall.Write b => rw.Write b
      | WCall.WriteHeader code => rw.WriteHeader code)
    { wroteHeader := false, status := 0, body := "" }
  if rw.wroteHeader then rw else rw.WriteHeader StatusOK

/-! ## main: the shutdown sequence against the supervisor goroutine

The two goroutines are interleaved statement by statement.  In the supervisor
the evaluation of the `select` (which takes its `default` branch when the
`shutdown` channel is open) and the call of `listenToMQTT` in that branch are
two separate statements, so `close(shutdown)` can fall between them. -/

/-- Position of the main goroutine: blocked on `<-sigChan`, about to call
`mqttClient.Disconnect(250)`, about to call `server.Shutdown(ctx)`, about to
`close(shutdown)`, about to return, or gone (returned, or `log.Fatalf`). -/
inductive MainPc where
  | awaitSignal
  | disconnect
  | serverShutdown
  | closeShutdown
  | complete
  | exited
deriving DecidableEq

/-- Position of the supervisor goroutine: at the `select`, in the `default`
branch about to call `listenToMQTT`, inside `listenToMQTT`, or returned. -/
inductive SupPc where
  | select
  | inDefault
  | listening
  | returned
deriving DecidableEq

/-- Joint state of the two goroutines and of the `shutdown` channel. -/
structure Sys where
  main : MainPc
  sup : SupPc
  shutdownClosed : Bool
deriving DecidableEq

/-- One statement of one of the two goroutines. -/
inductive Step where
  | recvSignal
  | mqttDisconnect
  | serverShutdownOk
  | serverShutdownFatal
  | closeChan
  | mainReturn
  | selectDefault
  | beginListen
  | endListen
  | supReturn
deriving DecidableEq

/-- State in which the goroutine is spawned and main blocks on `<-sigChan`. -/
def Sys.start : Sys :=
  { main := MainPc.awaitSignal, sup := SupPc.select, shutdownClosed := false }

/-- Effect of one statement, `none` when it is not enabled.  The `select`
takes `case <-shutdown` (`supReturn`) when the channel is closed and `default`
(`selectDefault`) otherwise; the call of `listenToMQTT` in the `default` branch
(`beginListen`) is a later statement that no longer looks at the channel;
nothing runs once the process has exited. -/
def step (s : Sys) : Step → Option Sys
  | Step.recvSignal =>
    if s.main = MainPc.awaitSignal then some { s with main := MainPc.disconnect } else none
  | Step.mqttDisconnect =>
    if s.main = MainPc.disconnect then some { s with main := MainPc.serverShutdown } else none
  | Step.serverShutdownOk =>
    if s.main = MainPc.serverShutdown then some { s with main := MainPc.closeShutdown } else none
  | Step.serverShutdownFatal =>
    if s.main = MainPc.serverShutdown then some { s with main := MainPc.exited } else none
  | Step.closeChan =>
    if s.main = MainPc.closeShutdown then
      some { s with main := MainPc.complete, shutdownClosed := true }
    else none
  | Step.mainReturn =>
    if s.main = MainPc.complete then some { s with main := MainPc.exited } else none
  | Step.selectDefault =>
    if s.main ≠ MainPc.exited ∧ s.sup = SupPc.select ∧ s.shutdownClosed = false then
      some { s with sup := SupPc.inDefault }
    else none
  | Step.beginListen =>
    if s.main ≠ MainPc.exited ∧ s.sup = SupPc.inDefault then
      some { s with sup := SupPc.listening }
    else none
  | Step.endListen =>
    if s.main ≠ MainPc.exited ∧ s.sup = SupPc.listening then
      some { s with sup := SupPc.select }
    else none
  | Step.supReturn =>
    if s.main ≠ MainPc.exited ∧ s.sup = SupPc.select ∧ s.shutdownClosed = true then
      some { s with sup := SupPc.returned }
    else none

/-- Run a schedule: `none` when some statement of it is not enabled. -/
def run : Sys → List Step → Option Sys
  | s, [] => some s
  | s, t :: rest => (step s t).bind (fun s1 => run s1 rest)

end DahuaCompanion

namespace DahuaCompanion

/-! ## Auxiliary facts -/

theorem signatureTest_eq_true_iff (bytes : List Byte) :
    signatureTest bytes = true ↔ (bytes.length = 36 ∧ bytes.get? 25 = some 97) := by
  unfold signatureTest
  by_cases h : bytes.length = 36
  · have h25 : 25 < bytes.length := by omega
    simp [h, List.get?_eq_get h25]
  · simp [h]

theorem publish_mem_scanBody (bytes : List Byte) (tok : Token) (t : String) (q : Nat)
    (r : Bool) (p : String) (hm : Action.Publish t q r p ∈ scanBody bytes tok) :
    signatureTest bytes = true := by
  unfold scanBody at hm
  by_cases h : signatureTest bytes = true
  · exact h
  · simp [h] at hm

theorem deliver_body_then_header (c : Int) (b : String) :
    (deliver ((if c ≠ StatusOK then [WCall.Write b] else []) ++ [WCall.WriteHeader c])).status
      = 200 := by
  by_cases hc : c = 200
  · simp [deliver, ResponseWriter.WriteHeader, StatusOK, hc]
  · simp [deliver, ResponseWriter.Write, ResponseWriter.WriteHeader, StatusOK, hc]

theorem scanBody_filter_isPublish (bytes : List Byte) (tok : Token) :
    (scanBody bytes tok).filter Action.isPublish
      = if signatureTest bytes then [Action.Publish "doorbell/pressed" 0 false ""] else [] := by
  rcases tok with ⟨wt, er⟩
  by_cases h : signatureTest bytes = true
  · cases wt <;> cases er <;> simp [scanBody, h, Action.isPublish]
  · simp [scanBody, h]

theorem scanLoop_filter_isPublish (publish : Nat → Token) (lines : List (List Byte)) (k : Nat) :
    (scanLoop publish lines k).filter Action.isPublish
      = (lines.filter signatureTest).map
          (fun _ => Action.Publish "doorbell/pressed" 0 false "") := by
  induction lines generalizing k with
  | nil => simp [scanLoop]
  | cons bytes rest ih =>
    rw [scanLoop, List.filter_append, scanBody_filter_isPublish, ih]
    by_cases h : signatureTest bytes = true
    · simp [h]
    · simp [h]

theorem scanBody_no_get_no_sleep (bytes : List Byte) (tok : Token) (a : Action)
    (ha : a ∈ scanBody bytes tok) : a.isGet = false ∧ a.isSleep = false := by
  rcases tok with ⟨wt, er⟩
  by_cases h : signatureTest bytes = true
  · cases wt <;> cases er <;> simp [scanBody, h] at ha <;>
      rcases ha with rfl | rfl | rfl <;> simp [Action.isGet, Action.isSleep]
  · simp [scanBody, h] at ha

theorem scanLoop_no_get_no_sleep (publish : Nat → Token) (lines : List (List Byte)) (k : Nat)
    (a : Action) (ha : a ∈ scanLoop publish lines k) : a.isGet = false ∧ a.isSleep = false := by
  induction lines generalizing k with
  | nil => simp [scanLoop] at ha
  | cons bytes rest ih =>
    rw [scanLoop, List.mem_append] at ha
    rcases ha with ha | ha
    · exact scanBody_no_get_no_sleep bytes _ a ha
    · exact ih _ ha

/-- Shape of the trace of one call: the GET first, the 5-second sleep last, and
neither a GET nor a sleep in between. -/
theorem listenToMQTT_trace_shape (host_or_ip : String) (env : StreamEnv) (w : World) :
    ∃ mid : List Action,
      (listenToMQTT host_or_ip env w).trace
        = w.trace ++ (Action.Get (streamURL host_or_ip) :: (mid ++ [Action.Sleep (5 * Second)]))
      ∧ ∀ a ∈ mid, a.isGet = false ∧ a.isSleep = false := by
  rcases env with ⟨get, lines, scanErr, publish⟩
  rcases get with err | resp
  · exact ⟨[Action.Log ("Error fetching http stream: " ++ err ++ "\n")],
      by simp [listenToMQTT], by simp [Action.isGet, Action.isSleep]⟩
  · by_cases hs : resp.StatusCode = StatusOK
    · cases scanErr with
      | none =>
        refine ⟨[Action.Log "Connected to HTTP stream and listening for events"]
          ++ scanLoop publish lines 0 ++ [Action.BodyClose], by simp [listenToMQTT, hs], ?_⟩
        intro a ha
        simp only [List.mem_append, List.mem_singleton] at ha
        rcases ha with (rfl | ha) | rfl
        · simp [Action.isGet, Action.isSleep]
        · exact scanLoop_no_get_no_sleep publish lines 0 a ha
        · simp [Action.isGet, Action.isSleep]
      | some e =>
        refine ⟨[Action.Log "Connected to HTTP stream and listening for events"]
          ++ scanLoop publish lines 0
          ++ [Action.Log ("Error reading the stream: " ++ e ++ "\n"), Action.BodyClose],
          by simp [listenToMQTT, hs], ?_⟩
        intro a ha
        simp only [List.mem_append, List.mem_singleton, List.mem_cons, List.mem_nil_iff,
          or_false] at ha
        rcases ha with (rfl | ha) | rfl | rfl
        · simp [Action.isGet, Action.isSleep]
        · exact scanLoop_no_get_no_sleep publish lines 0 a ha
        · simp [Action.isGet, Action.isSleep]
        · simp [Action.isGet, Action.isSleep]
    · exact ⟨[Action.Log ("Received non-OK HTTP status: " ++ toString resp.StatusCode ++ "\n"),
        Action.BodyClose], by simp [listenToMQTT, hs], by simp [Action.isGet, Action.isSleep]⟩

theorem step_after_close (s s1 : Sys) (t : Step) (h : step s t = some s1)
    (hc : s.shutdownClosed = true) :
    s1.shutdownClosed = true ∧ t ≠ Step.selectDefault
    ∧ (t = Step.beginListen → s.sup = SupPc.inDefault ∧ s1.sup ≠ SupPc.inDefault)
    ∧ (t ≠ Step.beginListen → s1.sup = SupPc.inDefault → s.sup = SupPc.inDefault) := by
  cases t <;> simp only [step] at h <;> split at h <;> simp_all <;> subst h <;> simp_all

theorem run_after_close (post : List Step) (s s1 : Sys) (h : run s post = some s1)
    (hc : s.shutdownClosed = true) :
    Step.selectDefault ∉ post
    ∧ post.count Step.beginListen ≤ (if s.sup = SupPc.inDefault then 1 else 0) := by
  induction post generalizing s with
  | nil => simp
  | cons t rest ih =>
    simp only [run] at h
    cases hst : step s t with
    | none => simp [hst] at h
    | some s2 =>
      simp only [hst, Option.some_bind] at h
      obtain ⟨hc2, hne, hb, hnb⟩ := step_after_close s s2 t hst hc
      obtain ⟨ih1, ih2⟩ := ih s2 h hc2
      constructor
      · intro hmem
        rcases List.mem_cons.1 hmem with heq | hin
        · exact hne heq.symm
        · exact ih1 hin
      · by_cases ht : t = Step.beginListen
        · obtain ⟨hs, hs2⟩ := hb ht
          subst ht
          simp only [hs2, if_false] at ih2
          simp only [List.count_cons_self, hs, if_true]
          omega
        · rw [List.count_cons_of_ne (fun e => ht e.symm)]
          by_cases hs2 : s2.sup = SupPc.inDefault
          · simp only [hnb ht hs2, if_true]
            simp only [hs2, if_true] at ih2
            exact ih2
          · simp only [hs2, if_false] at ih2
            omega

theorem run_append (a b : List Step) (s : Sys) :
    run s (a ++ b) = (run s a).bind (fun s1 => run s1 b) := by
  induction a generalizing s with
  | nil => simp [run]
  | cons t rest ih =>
    simp only [List.cons_append, run]
    cases step s t with
    | none => simp
    | some s2 => simp [ih]

theorem cooled_append_iteration (t mid : List Action) (u0 : String) (ht : Cooled t)
    (hmid : ∀ a ∈ mid, a.isGet = false) :
    Cooled (t ++ (Action.Get u0 :: (mid ++ [Action.Sleep (5 * Second)]))) := by
  obtain ⟨hA, hB⟩ := ht
  obtain ⟨blk, hblk⟩ : ∃ blk, blk = Action.Get u0 :: (mid ++ [Action.Sleep (5 * Second)]) :=
    ⟨_, rfl⟩
  rw [← hblk]
  have hlt : ∀ i, i < t.length → (t ++ blk)[i]? = t[i]? :=
    fun i h => List.getElem?_append_left h
  have hget : ∀ i u, (t ++ blk)[i]? = some (Action.Get u) → i < t.length ∨ i = t.length := by
    intro i u h
    by_cases hi : i < t.length
    · exact Or.inl hi
    · right
      rw [List.getElem?_append_right (by omega)] at h
      rcases Nat.eq_zero_or_pos (i - t.length) with h0 | hpos
      · omega
      · exfalso
        obtain ⟨m, hm⟩ : ∃ m, i - t.length = m + 1 := ⟨i - t.length - 1, by omega⟩
        rw [hm, hblk, List.getElem?_cons_succ] at h
        have hmem := List.getElem?_mem h
        rcases List.mem_append.1 hmem with h1 | h1
        · have := hmid _ h1
          simp [Action.isGet] at this
        · simp at h1
  have hlast : (t ++ blk)[t.length + 1 + mid.length]? = some (Action.Sleep (5 * Second)) := by
    rw [List.getElem?_append_right (by omega)]
    have e : t.length + 1 + mid.length - t.length = mid.length + 1 := by omega
    rw [e, hblk, List.getElem?_cons_succ, List.getElem?_append_right (le_refl _)]
    simp
  have hlen : (t ++ blk).length = t.length + 1 + mid.length + 1 := by
    rw [hblk]
    simp
    omega
  constructor
  · intro i j u v hij hi hj
    have hil : i < t.length := by
      rcases hget j v hj with h | h <;> omega
    rw [hlt i hil] at hi
    rcases hget j v hj with hjl | hje
    · rw [hlt j hjl] at hj
      obtain ⟨k, h1, h2, h3⟩ := hA i j u v hij hi hj
      exact ⟨k, h1, h2, by rw [hlt k (by omega)]; exact h3⟩
    · obtain ⟨k, h1, h2, h3⟩ := hB i u hi
      exact ⟨k, h1, by omega, by rw [hlt k h2]; exact h3⟩
  · intro i u hi
    refine ⟨t.length + 1 + mid.length, ?_, by omega, hlast⟩
    rcases hget i u hi with h | h <;> omega

theorem supervisor_cooled (host_or_ip : String) (obs : List SelectObs) (w : World)
    (hw : Cooled w.trace) : Cooled (supervisor host_or_ip obs w).trace := by
  induction obs generalizing w with
  | nil => exact hw
  | cons o rest ih =>
    rw [supervisor]
    split
    · exact hw
    · apply ih
      obtain ⟨mid, he, hm⟩ := listenToMQTT_trace_shape host_or_ip o.env w
      rw [he]
      exact cooled_append_iteration w.trace mid _ hw (fun a ha => (hm a ha).1)

/-! ## The claims -/

/-- C1: the signature test holds exactly for the lines of length 36 whose byte
at offset 25 is 97, and the loop body signals an event (issues a Publish)
exactly for those lines; in particular the empty line signals none. -/
theorem signatureTest_iff (bytes : List Byte) (tok : Token) :
    (signatureTest bytes = true ↔ (bytes.length = 36 ∧ bytes.get? 25 = some 97))
    ∧ ((∃ t q r p, Action.Publish t q r p ∈ scanBody bytes tok)
        ↔ (bytes.length = 36 ∧ bytes.get? 25 = some 97))
    ∧ signatureTest [] = false := by
  refine ⟨signatureTest_eq_true_iff bytes, ?_, by decide⟩
  rw [← signatureTest_eq_true_iff]
  constructor
  · rintro ⟨t, q, r, p, hm⟩
    exact publish_mem_scanBody bytes tok t q r p hm
  · intro h
    exact ⟨"doorbell/pressed", 0, false, "", by simp [scanBody, h]⟩

/-- C9: the documented start line has 36 ASCII bytes with 97 at offset 25 and
passes the signature test; the corresponding stop line fails it. -/
theorem signatureTest_start_stop :
    (asciiBytes "Code=AlarmLocal;action=Start;index=0").length = 36
    ∧ (asciiBytes "Code=AlarmLocal;action=Start;index=0").get? 25 = some 97
    ∧ signatureTest (asciiBytes "Code=AlarmLocal;action=Start;index=0") = true
    ∧ signatureTest (asciiBytes "Code=AlarmLocal;action=Stop;index=0") = false := by
  decide

/-- C2: with both flags equal to 1 and a probe GET that returns a transport
error, the handler leaves statusCode at 200 and passes 200 to WriteHeader
without writing a body. -/
theorem healthCheck_probe_error_gives_200 (host_or_ip err : String) :
    (healthCheckHandler host_or_ip 1 1 (GetResult.error err)).statusCode = 200
    ∧ (healthCheckHandler host_or_ip 1 1 (GetResult.error err)).calls
        = [WCall.WriteHeader 200] := by
  constructor <;> rfl

/-- C3: whatever the flags and the probe outcome, the response the client
receives from healthCheckHandler has status 200, because a body is written
before the header whenever the chosen status is 503; with mqttConnected = 0 the
chosen status is 503 and the delivered status is 200. -/
theorem healthCheck_delivers_200 (host_or_ip : String) (mqttConnected httpConnected : Int)
    (probe : GetResult) :
    (deliver (healthCheckHandler host_or_ip mqttConnected httpConnected probe).calls).status
        = 200
    ∧ (healthCheckHandler "192.168.1.108" 0 1
          (GetResult.response ⟨200, "200 OK"⟩)).statusCode = 503
    ∧ (deliver (healthCheckHandler "192.168.1.108" 0 1
          (GetResult.response ⟨200, "200 OK"⟩)).calls).status ≠ 503 := by
  refine ⟨?_, by decide, by decide⟩
  exact deliver_body_then_header _ _

/-- C4: an iteration of listenToMQTT whose GET succeeds with status 200 returns
with httpConnected = 1, whatever the stream delivered and however the scan
stopped. -/
theorem listenToMQTT_connected_after_stream_end (host_or_ip status : String)
    (lines : List (List Byte)) (scanErr : Option String) (publish : Nat → Token) (w : World) :
    (listenToMQTT host_or_ip
      { get := GetResult.response ⟨200, status⟩, lines := lines, scanErr := scanErr,
        publish := publish } w).httpConnected = 1 := by
  cases scanErr <;> simp [listenToMQTT, StatusOK]

/-- C5: an iteration of listenToMQTT whose GET fails, or returns a status other
than 200, returns with httpConnected = 0, leaves mqttConnected as it was and
appends no Publish call to the trace. -/
theorem listenToMQTT_connect_failure (host_or_ip : String) (env : StreamEnv) (w : World)
    (h : ∀ resp, env.get = GetResult.response resp → resp.StatusCode ≠ 200) :
    (listenToMQTT host_or_ip env w).httpConnected = 0
    ∧ (listenToMQTT host_or_ip env w).mqttConnected = w.mqttConnected
    ∧ ∃ acts : List Action, (listenToMQTT host_or_ip env w).trace = w.trace ++ acts
        ∧ ∀ t q r p, Action.Publish t q r p ∉ acts := by
  rcases env with ⟨get, lines, scanErr, publish⟩
  rcases get with err | resp
  · refine ⟨by simp [listenToMQTT], by simp [listenToMQTT],
      [Action.Get (streamURL host_or_ip),
        Action.Log ("Error fetching http stream: " ++ err ++ "\n"), Action.Sleep (5 * Second)],
      by simp [listenToMQTT], ?_⟩
    intro t q r p
    simp
  · have hs : resp.StatusCode ≠ StatusOK := h resp rfl
    refine ⟨by simp [listenToMQTT, hs], by simp [listenToMQTT, hs],
      [Action.Get (streamURL host_or_ip),
        Action.Log ("Received non-OK HTTP status: " ++ toString resp.StatusCode ++ "\n"),
        Action.BodyClose, Action.Sleep (5 * Second)],
      by simp [listenToMQTT, hs], ?_⟩
    intro t q r p
    simp

/-- C5 at a concrete input: the device answers 401 while both flags are 1. -/
theorem listenToMQTT_connect_failure_witness :
    (∀ resp, GetResult.response ⟨401, "401 Unauthorized"⟩ = GetResult.response resp →
        resp.StatusCode ≠ 200)
    ∧ (listenToMQTT "192.168.1.108"
        { get := GetResult.response ⟨401, "401 Unauthorized"⟩, lines := [], scanErr := none,
          publish := fun _ => ⟨true, none⟩ }
        { mqttConnected := 1, httpConnected := 1, trace := [] }).httpConnected = 0
    ∧ (listenToMQTT "192.168.1.108"
        { get := GetResult.response ⟨401, "401 Unauthorized"⟩, lines := [], scanErr := none,
          publish := fun _ => ⟨true, none⟩ }
        { mqttConnected := 1, httpConnected := 1, trace := [] }).mqttConnected = 1
    ∧ ∃ acts : List Action,
        (listenToMQTT "192.168.1.108"
          { get := GetResult.response ⟨401, "401 Unauthorized"⟩, lines := [], scanErr := none,
            publish := fun _ => ⟨true, none⟩ }
          { mqttConnected := 1, httpConnected := 1, trace := [] }).trace = [] ++ acts
        ∧ ∀ t q r p, Action.Publish t q r p ∉ acts :=
  ⟨by intro resp hr; cases hr; decide,
    listenToMQTT_connect_failure "192.168.1.108"
      { get := GetResult.response ⟨401, "401 Unauthorized"⟩, lines := [], scanErr := none,
        publish := fun _ => ⟨true, none⟩ }
      { mqttConnected := 1, httpConnected := 1, trace := [] }
      (by intro resp hr; cases hr; decide)⟩

/-- C6: after a successful connect, the Publish calls of one iteration are, in
stream order, one call with topic "doorbell/pressed", QoS 0, retained = false
and empty payload per line that passes the signature test, whatever tokens the
publish attempts return and however the scan ends; their number is the number
of matching lines. -/
theorem listenToMQTT_publishes_per_match (host_or_ip status : String)
    (lines : List (List Byte)) (scanErr : Option String) (publish : Nat → Token) (w : World) :
    ∃ acts : List Action,
      (listenToMQTT host_or_ip
        { get := GetResult.response ⟨200, status⟩, lines := lines, scanErr := scanErr,
          publish := publish } w).trace = w.trace ++ acts
      ∧ acts.filter Action.isPublish
          = (lines.filter signatureTest).map
              (fun _ => Action.Publish "doorbell/pressed" 0 false "")
      ∧ (acts.filter Action.isPublish).length = lines.countP signatureTest := by
  have key : ∀ acts : List Action,
      acts.filter Action.isPublish
          = (lines.filter signatureTest).map
              (fun _ => Action.Publish "doorbell/pressed" 0 false "") →
      (acts.filter Action.isPublish).length = lines.countP signatureTest := by
    intro acts h
    rw [h, List.length_map, List.countP_eq_length_filter]
  cases scanErr with
  | none =>
    refine ⟨[Action.Get (streamURL host_or_ip),
        Action.Log "Connected to HTTP stream and listening for events"]
        ++ scanLoop publish lines 0 ++ [Action.BodyClose, Action.Sleep (5 * Second)],
      by simp [listenToMQTT, StatusOK], ?_⟩
    have hf : ([Action.Get (streamURL host_or_ip),
        Action.Log "Connected to HTTP stream and listening for events"]
        ++ scanLoop publish lines 0
        ++ [Action.BodyClose, Action.Sleep (5 * Second)]).filter Action.isPublish
        = (lines.filter signatureTest).map
              (fun _ => Action.Publish "doorbell/pressed" 0 false "") := by
      simp only [List.filter_append, scanLoop_filter_isPublish]
      simp [Action.isPublish]
    exact ⟨hf, key _ hf⟩
  | some e =>
    refine ⟨[Action.Get (streamURL host_or_ip),
        Action.Log "Connected to HTTP stream and listening for events"]
        ++ scanLoop publish lines 0
        ++ [Action.Log ("Error reading the stream: " ++ e ++ "\n"), Action.BodyClose,
            Action.Sleep (5 * Second)],
      by simp [listenToMQTT, StatusOK], ?_⟩
    have hf : ([Action.Get (streamURL host_or_ip),
        Action.Log "Connected to HTTP stream and listening for events"]
        ++ scanLoop publish lines 0
        ++ [Action.Log ("Error reading the stream: " ++ e ++ "\n"), Action.BodyClose,
            Action.Sleep (5 * Second)]).filter Action.isPublish
        = (lines.filter signatureTest).map
              (fun _ => Action.Publish "doorbell/pressed" 0 false "") := by
      simp only [List.filter_append, scanLoop_filter_isPublish]
      simp [Action.isPublish]
    exact ⟨hf, key _ hf⟩

/-- C8: when httpConnected is not 1 the handler writes exactly one body,
"MQTT: " ++ m ++ ", HTTP: disconnected, Doorbell: " ++ d with m and d as the
flags and the probe outcome dictate; with the bus connected and a probe
answering 200 the body is "MQTT: connected, HTTP: disconnected, Doorbell: okay",
which contains "HTTP: disconnected". -/
theorem healthCheck_body_when_stream_down (host_or_ip : String)
    (mqttConnected httpConnected : Int) (probe : GetResult) (hh : httpConnected ≠ 1) :
    writes (healthCheckHandler host_or_ip mqttConnected httpConnected probe).calls
      = ["MQTT: " ++ (if mqttConnected = 1 then "connected" else "disconnected")
          ++ ", HTTP: disconnected, Doorbell: "
          ++ (match probe with
              | GetResult.error _ => "HTTP Request Error"
              | GetResult.response res =>
                if res.StatusCode = 200 then "okay" else "HTTP Status Error " ++ res.Status)]
    ∧ writes (healthCheckHandler "192.168.1.108" 1 0
          (GetResult.response ⟨200, "200 OK"⟩)).calls
        = ["MQTT: connected, HTTP: disconnected, Doorbell: okay"]
    ∧ "HTTP: disconnected".toList
        <:+: "MQTT: connected, HTTP: disconnected, Doorbell: okay".toList := by
  refine ⟨?_, by decide, by decide⟩
  have e1 : ∀ a b : String,
      a ++ ", HTTP: " ++ "disconnected" ++ ", Doorbell: " ++ b
        = a ++ ", HTTP: disconnected, Doorbell: " ++ b := by
    intro a b
    apply String.ext
    simp [String.data_append]
  by_cases hm : mqttConnected = 1
  · rcases probe with err | res
    · simp [healthCheckHandler, writes, StatusOK, StatusServiceUnavailable, hm, hh, e1]
    · by_cases hs : res.StatusCode = 200
      · simp [healthCheckHandler, writes, StatusOK, StatusServiceUnavailable, hm, hh, hs, e1]
      · simp [healthCheckHandler, writes, StatusOK, StatusServiceUnavailable, hm, hh, hs, e1]
  · rcases probe with err | res
    · simp [healthCheckHandler, writes, StatusOK, StatusServiceUnavailable, hm, hh, e1]
    · by_cases hs : res.StatusCode = 200
      · simp [healthCheckHandler, writes, StatusOK, StatusServiceUnavailable, hm, hh, hs, e1]
      · simp [healthCheckHandler, writes, StatusOK, StatusServiceUnavailable, hm, hh, hs, e1]

/-- C8 at a concrete input: stream flag 0, bus flag 1, probe GET times out. -/
theorem healthCheck_body_when_stream_down_witness :
    (0 : Int) ≠ 1
    ∧ writes (healthCheckHandler "192.168.1.108" 1 0 (GetResult.error "timeout")).calls
        = ["MQTT: connected, HTTP: disconnected, Doorbell: HTTP Request Error"] :=
  ⟨by decide,
    (healthCheck_body_when_stream_down "192.168.1.108" 1 0 (GetResult.error "timeout")
      (by decide)).1⟩

/-- C10 as stated fails: in the schedule where main receives the signal and the
supervisor then evaluates its select, the shutdown channel is still open, the
default branch is taken and a new call of listenToMQTT begins. -/
theorem listen_begins_after_signal :
    ¬ (∀ (steps pre post : List Step) (s : Sys), run Sys.start steps = some s →
        steps = pre ++ Step.recvSignal :: post → Step.beginListen ∉ post) := by
  intro h
  exact h [Step.recvSignal, Step.selectDefault, Step.beginListen] []
    [Step.selectDefault, Step.beginListen]
    ⟨MainPc.disconnect, SupPc.listening, false⟩ (by decide) rfl (by simp)

/-- A call of listenToMQTT can still begin after close(shutdown): the select
took its default branch just before the channel was closed. -/
theorem listen_can_begin_after_close :
    run Sys.start
        [Step.recvSignal, Step.mqttDisconnect, Step.serverShutdownOk, Step.selectDefault,
          Step.closeChan, Step.beginListen]
      = some ⟨MainPc.complete, SupPc.listening, true⟩ := by
  decide

/-- C10 amended: in every interleaving, once main has executed close(shutdown)
the select of the supervisor goroutine never takes its default branch again,
and at most one call of listenToMQTT begins after the close. -/
theorem select_stops_after_close (steps pre post : List Step) (s : Sys)
    (hrun : run Sys.start steps = some s) (hsplit : steps = pre ++ Step.closeChan :: post) :
    Step.selectDefault ∉ post ∧ post.count Step.beginListen ≤ 1 := by
  subst hsplit
  rw [run_append] at hrun
  cases hpre : run Sys.start pre with
  | none => simp [hpre] at hrun
  | some s1 =>
    simp only [hpre, Option.some_bind, run] at hrun
    cases hst : step s1 Step.closeChan with
    | none => simp [hst] at hrun
    | some s2 =>
      simp only [hst, Option.some_bind] at hrun
      have hc : s2.shutdownClosed = true := by
        simp only [step] at hst
        split at hst
        · cases hst; rfl
        · cases hst
      obtain ⟨h1, h2⟩ := run_after_close post s2 s hrun hc
      refine ⟨h1, le_trans h2 ?_⟩
      split <;> omega

/-- C10 amended, at a concrete schedule: the supervisor starts a call between
the signal and the close, takes the default branch once more just before the
close, begins that last call after the close and returns at its next select. -/
theorem select_stops_after_close_witness :
    run Sys.start
        [Step.selectDefault, Step.beginListen, Step.recvSignal, Step.mqttDisconnect,
          Step.endListen, Step.selectDefault, Step.beginListen, Step.endListen,
          Step.serverShutdownOk, Step.selectDefault, Step.closeChan, Step.beginListen,
          Step.endListen, Step.supReturn]
      = some ⟨MainPc.complete, SupPc.returned, true⟩
    ∧ Step.selectDefault ∉ [Step.beginListen, Step.endListen, Step.supReturn]
    ∧ [Step.beginListen, Step.endListen, Step.supReturn].count Step.beginListen ≤ 1 :=
  ⟨by decide,
    select_stops_after_close
      [Step.selectDefault, Step.beginListen, Step.recvSignal, Step.mqttDisconnect,
        Step.endListen, Step.selectDefault, Step.beginListen, Step.endListen,
        Step.serverShutdownOk, Step.selectDefault, Step.closeChan, Step.beginListen,
        Step.endListen, Step.supReturn]
      [Step.selectDefault, Step.beginListen, Step.recvSignal, Step.mqttDisconnect,
        Step.endListen, Step.selectDefault, Step.beginListen, Step.endListen,
        Step.serverShutdownOk, Step.selectDefault]
      [Step.beginListen, Step.endListen, Step.supReturn]
      ⟨MainPc.complete, SupPc.returned, true⟩ (by decide) rfl⟩

/-- C7: every call of listenToMQTT ends with a time.Sleep of 5 seconds and calls
time.Sleep nowhere else; and in the trace of the supervisor loop a 5-second
sleep lies between any two GET attempts. -/
theorem cooldown_between_attempts (host_or_ip : String) (env : StreamEnv) (w : World)
    (obs : List SelectObs) (mqttConnected httpConnected : Int) (i j : Nat) (u v : String)
    (hij : i < j)
    (hi : (supervisor host_or_ip obs ⟨mqttConnected, httpConnected, []⟩).trace[i]?
      = some (Action.Get u))
    (hj : (supervisor host_or_ip obs ⟨mqttConnected, httpConnected, []⟩).trace[j]?
      = some (Action.Get v)) :
    (∃ pre : List Action,
      (listenToMQTT host_or_ip env w).trace = w.trace ++ pre ++ [Action.Sleep (5 * Second)]
      ∧ ∀ a ∈ pre, a.isSleep = false)
    ∧ 5 * Second = 5000000000
    ∧ ∃ k : Nat, i < k ∧ k < j
        ∧ (supervisor host_or_ip obs ⟨mqttConnected, httpConnected, []⟩).trace[k]?
          = some (Action.Sleep (5 * Second)) := by
  refine ⟨?_, by decide, ?_⟩
  · obtain ⟨mid, he, hm⟩ := listenToMQTT_trace_shape host_or_ip env w
    refine ⟨Action.Get (streamURL host_or_ip) :: mid, by rw [he]; simp, ?_⟩
    intro a ha
    rcases List.mem_cons.1 ha with rfl | ha
    · rfl
    · exact (hm a ha).2
  · have hc : Cooled (supervisor host_or_ip obs ⟨mqttConnected, httpConnected, []⟩).trace :=
      supervisor_cooled host_or_ip obs _ ⟨by simp, by simp⟩
    exact hc.1 i j u v hij hi hj

/-- C7 at a concrete run: two failed connection attempts in a row. -/
theorem cooldown_between_attempts_witness :
    (supervisor "192.168.1.108"
        [⟨false, ⟨GetResult.error "refused", [], none, fun _ => ⟨true, none⟩⟩⟩,
         ⟨false, ⟨GetResult.response ⟨401, "401 Unauthorized"⟩, [], none,
            fun _ => ⟨true, none⟩⟩⟩]
        ⟨1, 0, []⟩).trace[0]? = some (Action.Get (streamURL "192.168.1.108"))
    ∧ (supervisor "192.168.1.108"
        [⟨false, ⟨GetResult.error "refused", [], none, fun _ => ⟨true, none⟩⟩⟩,
         ⟨false, ⟨GetResult.response ⟨401, "401 Unauthorized"⟩, [], none,
            fun _ => ⟨true, none⟩⟩⟩]
        ⟨1, 0, []⟩).trace[3]? = some (Action.Get (streamURL "192.168.1.108"))
    ∧ ∃ k : Nat, 0 < k ∧ k < 3
        ∧ (supervisor "192.168.1.108"
            [⟨false, ⟨GetResult.error "refused", [], none, fun _ => ⟨true, none⟩⟩⟩,
             ⟨false, ⟨GetResult.response ⟨401, "401 Unauthorized"⟩, [], none,
                fun _ => ⟨true, none⟩⟩⟩]
            ⟨1, 0, []⟩).trace[k]? = some (Action.Sleep (5 * Second)) :=
  ⟨by decide, by decide,
    (cooldown_between_attempts "192.168.1.108"
      ⟨GetResult.error "refused", [], none, fun _ => ⟨true, none⟩⟩ ⟨1, 0, []⟩
      [⟨false, ⟨GetResult.error "refused", [], none, fun _ => ⟨true, none⟩⟩⟩,
       ⟨false, ⟨GetResult.response ⟨401, "401 Unauthorized"⟩, [], none,
          fun _ => ⟨true, none⟩⟩⟩]
      1 0 0 3 (streamURL "192.168.1.108") (streamURL "192.168.1.108")
      (by decide) (by decide) (by decide)).2.2⟩

end DahuaCompanion
